import Mathlib

/-!
Verification of the DX Film Edge row decoder
(`src/core/src/oned/ODDXFilmEdgeReader.cpp`).

The decoder's own logic (state handling, clock detection bookkeeping,
tolerance gate, bit-recovery loop, structural checks, parity, text
building) is translated directly from the source file.  The pattern
primitives (`PatternView`, `FindLeftGuard`, `IsRightGuard`) live outside
the provided sources, so they are modelled from the specification's
description of left-guard matching and right-guard verification
(spec §3 "Run-length row view", §4.2 "Left-guard matching").

Machine integers are modelled as `Nat` (all quantities involved are
non-negative and far from 2^31); the one subtraction that can go below
zero in C++ (`xStart - pixelTolerance/2`) is performed in `Int`,
matching C++ `int` semantics.
-/

set_option autoImplicit false

/-- Modelled from the spec: a run-length row view, "an ordered sequence of
positive integers representing alternating bar/space widths along one scan
line, plus a cursor position"; modelled as `(slice, offset)` per spec §9:
`runs` is the whole row (index 0 is the leading space, bars at odd
indices), `pos` the cursor, `size` the window length. -/
structure PatternView where
  runs : List Nat
  pos : Nat
  size : Nat
  deriving DecidableEq, Repr

/-- Modelled from the spec: the view is usable when its window lies inside
the row. -/
def PatternView.isValid (v : PatternView) : Bool :=
  decide (v.pos + v.size ≤ v.runs.length) && decide (0 < v.size)

/-- Modelled from the spec: read the current run width (`*next.data()`). -/
def PatternView.data (v : PatternView) : Nat :=
  v.runs.getD v.pos 0

/-- Modelled from the spec: shift the cursor by `k` elements, keeping the
window length. -/
def PatternView.shift (v : PatternView) (k : Nat) : PatternView :=
  { v with pos := v.pos + k }

/-- Modelled from the spec: sub-view of length `sz` starting `off` elements
after the cursor. -/
def PatternView.subView (v : PatternView) (off sz : Nat) : PatternView :=
  { v with pos := v.pos + off, size := sz }

/-- Modelled from the spec: pixel offset from row start to the cursor. -/
def PatternView.pixelsInFront (v : PatternView) : Nat :=
  (v.runs.take v.pos).sum

/-- Modelled from the spec: pixel offset from row start to the window's end. -/
def PatternView.pixelsTillEnd (v : PatternView) : Nat :=
  (v.runs.take (v.pos + v.size)).sum

/-- `FixedPattern<25, 31>` for the clock of codes carrying a half-frame
number: `{5, 1 x 23, 3}`. -/
def CLOCK_PATTERN_HF : List Nat := [5] ++ List.replicate 23 1 ++ [3]

/-- Nominal unit sum of `CLOCK_PATTERN_HF` (the `31` in `FixedPattern<25, 31>`). -/
def CLOCK_SUM_HF : Nat := 31

/-- `FixedPattern<17, 23>` for the clock of codes without a half-frame
number: `{5, 1 x 15, 3}`. -/
def CLOCK_PATTERN_NO_HF : List Nat := [5] ++ List.replicate 15 1 ++ [3]

/-- Nominal unit sum of `CLOCK_PATTERN_NO_HF`. -/
def CLOCK_SUM_NO_HF : Nat := 23

/-- `FixedPattern<5, 5>{1, 1, 1, 1, 1}`, the data-start pattern. -/
def START_PATTERN_ : List Nat := [1, 1, 1, 1, 1]

/-- Nominal unit sum of `START_PATTERN_`. -/
def START_SUM : Nat := 5

/-- `FixedPattern<3, 3>{1, 1, 1}`, the data-stop pattern. -/
def STOP_PATTERN_ : List Nat := [1, 1, 1]

/-- Nominal unit sum of `STOP_PATTERN_`. -/
def STOP_SUM : Nat := 3

/-- `minCharCount = 5` in `DXFilmEdgeReader::decodePattern`. -/
def minCharCount : Nat := 5

/-- Numerator of `minQuietZone = 0.4` (modelled as the rational 2/5). -/
def minQuietZoneNum : Nat := 2

/-- Denominator of `minQuietZone = 0.4`. -/
def minQuietZoneDen : Nat := 5

/-- `START_PATTERN_SIZE = 5`. -/
def START_PATTERN_SIZE : Nat := 5

/-- Modelled from the spec: a window of runs at `p` matches a fixed pattern
when each run is width-proportional to the pattern element, "up to a
per-run scale factor derived from the sum of actual pixels divided by S"
(spec §4.2): `run * S = element * windowSum` for every position. -/
def matchesAt (runs : List Nat) (p : Nat) (pattern : List Nat) (S : Nat) : Bool :=
  let window := (runs.drop p).take pattern.length
  decide (p + pattern.length ≤ runs.length) &&
    (window.zip pattern).all fun rp => decide (rp.1 * S = rp.2 * window.sum)

/-- Modelled from the spec: the quiet-zone test of left-guard matching —
"the preceding space is at least Q x unit-bar-width pixels wide"
(spec §4.2), with `Q = qNum/qDen` and unit width `windowSum / S`. -/
def quietBefore (runs : List Nat) (p : Nat) (pattern : List Nat)
    (S qNum qDen : Nat) : Bool :=
  let wsum := ((runs.drop p).take pattern.length).sum
  decide (runs.getD (p - 1) 0 * S * qDen ≥ qNum * wsum)

/-- Modelled from the spec (§4.2 "Left-guard matching"): slide the view
forward over bar positions (odd indices, since index 0 is the leading
space) until a width-proportional window with a sufficient left quiet
zone is found; return a view positioned at the match with the pattern's
length, or nothing.  `minSize` asks for at least `max pattern.length
minSize` remaining elements (it is ≤ the pattern length at every call
site, so it never bites). -/
def FindLeftGuard (v : PatternView) (minSize : Nat) (pattern : List Nat)
    (S qNum qDen : Nat) : Option PatternView :=
  ((List.range v.runs.length).find? fun p =>
      decide (v.pos ≤ p) && decide (p % 2 = 1) &&
        decide (p + max pattern.length minSize ≤ v.runs.length) &&
        matchesAt v.runs p pattern S &&
        quietBefore v.runs p pattern S qNum qDen).map
    fun p => { runs := v.runs, pos := p, size := pattern.length }

/-- Modelled from the spec: right-guard verification — the view's window is
width-proportional to the pattern and is followed by a quiet zone of at
least `qNum/qDen` unit widths. -/
def IsRightGuard (v : PatternView) (pattern : List Nat) (S qNum qDen : Nat) : Bool :=
  let wsum := ((v.runs.drop v.pos).take pattern.length).sum
  matchesAt v.runs v.pos pattern S &&
    decide (v.runs.getD (v.pos + pattern.length) 0 * S * qDen ≥ qNum * wsum)

/-- Translation of `fromVector`: MSB-first value of a bit slice (the bit at
distance `i` from the end contributes `1 <<< i`). -/
def fromVector : List Bool → Nat
  | [] => 0
  | b :: rest => (if b then 2 ^ rest.length else 0) + fromVector rest

/-- Translation of `struct DXFEState : RowReader::DecodingState`. -/
structure DXFEState where
  foundClock : Bool := false
  containsHFNumber : Bool := false
  clockPixelsInFront : Nat := 0
  pixelTolerance : Nat := 0
  deriving DecidableEq, Repr

/-- Translation of the clock-detection block of `decodePattern`
(lines 76–89): run only when no clock is stored; try the HF clock, then
the non-HF clock; on success store the clock's left edge and
`pixelTolerance = (pixelsTillEnd - pixelsInFront) / 23`. -/
def detectClock (next : PatternView) (st : DXFEState) : DXFEState :=
  if !st.foundClock then
    match FindLeftGuard next minCharCount CLOCK_PATTERN_HF CLOCK_SUM_HF
        minQuietZoneNum minQuietZoneDen with
    | some clock =>
      { st with foundClock := true, containsHFNumber := true,
                clockPixelsInFront := clock.pixelsInFront,
                pixelTolerance := (clock.pixelsTillEnd - clock.pixelsInFront) / 23 }
    | none =>
      match FindLeftGuard next minCharCount CLOCK_PATTERN_NO_HF CLOCK_SUM_NO_HF
          minQuietZoneNum minQuietZoneDen with
      | some clock =>
        { st with foundClock := true,
                  clockPixelsInFront := clock.pixelsInFront,
                  pixelTolerance := (clock.pixelsTillEnd - clock.pixelsInFront) / 23 }
      | none => st
  else st

/-- Translation of the alignment test of line 107:
`xStart - (pixelTolerance/2) < clockPixelsInFront && xStart +
(pixelTolerance/2) > clockPixelsInFront`, in `int` arithmetic. -/
def toleranceGate (xStart clockPixelsInFront pixelTolerance : Nat) : Bool :=
  decide ((xStart : Int) - (pixelTolerance / 2 : Nat) < (clockPixelsInFront : Int)) &&
    decide ((xStart : Int) + (pixelTolerance / 2 : Nat) > (clockPixelsInFront : Int))

/-- Translation of the per-run unit count of lines 181–182:
`raw / per_bar_raw_width + (raw % per_bar_raw_width > per_bar_raw_width / 2 ? 1 : 0)`. -/
def currentBarWidth (raw perBar : Nat) : Nat :=
  raw / perBar + (if raw % perBar > perBar / 2 then 1 else 0)

/-- Translation of the bit-recovery `while` loop (lines 175–198), with a
fuel argument for structural termination.  Each executed iteration adds
`w ≥ 1` to `signal_length`, so at most `L` iterations run before
`signal_length < L` fails; the fuel-exhaustion branch is unreachable from
`bitLoop`'s initial fuel `L + 1`. -/
def bitLoopGo (L perBar : Nat) :
    Nat → PatternView → Nat → Bool → List Bool →
    Option (PatternView × Nat × List Bool)
  | 0, _, _, _, _ => none
  | fuel + 1, next, signal_length, current_signal_is_black, signal_data =>
    if signal_length < L then
      if !next.isValid then none
      else
        let w := currentBarWidth next.data perBar
        if w = 0 then none
        else
          bitLoopGo L perBar fuel (next.shift 1) (signal_length + w)
            (!current_signal_is_black)
            (signal_data ++ List.replicate (min w (L - signal_data.length))
              current_signal_is_black)
    else some (next, signal_length, signal_data)

/-- The bit-recovery loop as entered by `decodePattern`: `signal_length = 0`,
`current_signal_is_black = false`, empty bit vector. -/
def bitLoop (L perBar : Nat) (next : PatternView) :
    Option (PatternView × Nat × List Bool) :=
  bitLoopGo L perBar (L + 1) next 0 false []

/-- The reference HF clock bit vector of line 314. -/
def signal_clock : List Bool :=
  [false, true, false, true, false, true, false, true, false, true, false,
   true, false, true, false, true, true, true, false, false, false, false, false]

/-- Translation of `std::accumulate` over a bit range: the number of set
bits, as summed by the source (bools convert to 0/1). -/
def boolSum : List Bool → Nat
  | [] => 0
  | b :: rest => (if b then 1 else 0) + boolSum rest

/-- Translation of the parity test of lines 320–324: the sum of all bits up
to `end - 2` taken modulo 2 must equal the parity bit `*(end - 2)`. -/
def parityOkB (l : List Bool) : Bool :=
  boolSum (l.take (l.length - 2)) % 2 == (if l.getD (l.length - 2) false then 1 else 0)

/-- Translation of `Result(txt, rowNumber, xStart, xStop, ...)` (the format
and symbology identifier are compile-time constants and are omitted). -/
structure Result where
  text : String
  rowNumber : Nat
  xStart : Nat
  xStop : Nat
  deriving DecidableEq, Repr

/-- Translation of `product_number = fromVector(signal_data.begin() + 1,
signal_data.begin() + 8)` (line 333): the 7 bits at positions 1..7. -/
def product_number (l : List Bool) : Nat := fromVector ((l.drop 1).take 7)

/-- Translation of `generation_number = fromVector(signal_data.begin() + 9,
signal_data.begin() + 13)` (line 337): the 4 bits at positions 9..12. -/
def generation_number (l : List Bool) : Nat := fromVector ((l.drop 9).take 4)

/-- Translation of `half_frame_number = fromVector(signal_data.begin() + 13,
signal_data.begin() + 20)` (line 356): the 7 bits at positions 13..19. -/
def half_frame_number (l : List Bool) : Nat := fromVector ((l.drop 13).take 7)

/-- Translation of the text building of lines 352–360:
`txt = to_string(product) + "-" + to_string(generation)`, and for HF
codes `txt += "/" + to_string(half_frame / 2)` plus `"A"` when the
half-frame number is odd. -/
def dxText (hf : Bool) (l : List Bool) : String :=
  let txt := toString (product_number l) ++ "-" ++ toString (generation_number l)
  if hf then
    let t := txt ++ "/" ++ toString (half_frame_number l / 2)
    if half_frame_number l % 2 ≠ 0 then t ++ "A" else t
  else txt

/-- Translation of the post-loop validation and text building
(lines 290–360 and the final `return Result(...)` of line 477): size
checks, separator-bit checks, the clock-as-data rejection, the parity
check, the nonzero product number, and the `"DX1-DX2[/frame[A]]"` text. -/
def postProcess (hf : Bool) (l : List Bool) (rowNumber xStart xStop : Nat) :
    Option Result :=
  if hf && decide (l.length < 23) then none
  else if !hf && decide (l.length < 15) then none
  else if l.getD 0 false || l.getD 8 false then none
  else if hf && (l.getD 20 false || l.getD 22 false) then none
  else if !hf && (l.getD 12 false || l.getD 14 false) then none
  else if decide (minQuietZoneNum ≤ minQuietZoneDen) && hf &&
      decide (l = signal_clock) then none
  else if !parityOkB l then none
  else if product_number l = 0 then none
  else some { text := dxText hf l, rowNumber := rowNumber,
              xStart := xStart, xStop := xStop }

/-- Translation of the data-band half of `decodePattern` (lines 99–477),
run after clock detection: locate the data-start pattern, check alignment
to the stored clock, read the unit bar width, skip the start pattern,
recover bits, verify the stop guard, and validate.  The source's locals
are inlined: `xStart = next.pixelsInFront`, `per_bar_raw_width =
next.data` (read before the shift), and the successively reassigned
`next` views appear as `next.shift START_PATTERN_SIZE` and
`n.subView 0 3`. -/
def dataPhase (rowNumber : Nat) (next0 : PatternView) (st : DXFEState) :
    Option Result :=
  match FindLeftGuard next0 minCharCount START_PATTERN_ START_SUM
      minQuietZoneNum minQuietZoneDen with
  | none => none
  | some next =>
    if toleranceGate next.pixelsInFront st.clockPixelsInFront st.pixelTolerance then
      if !(next.shift START_PATTERN_SIZE).isValid then none
      else
        match bitLoop (if st.containsHFNumber then 23 else 15) next.data
            (next.shift START_PATTERN_SIZE) with
        | none => none
        | some (n, _signal_length, signal_data) =>
          if !IsRightGuard (n.subView 0 3) STOP_PATTERN_ STOP_SUM
              minQuietZoneNum minQuietZoneDen then none
          else
            postProcess st.containsHFNumber signal_data rowNumber
              next.pixelsInFront (n.subView 0 3).pixelsTillEnd
    else none

/-- Translation of `DXFilmEdgeReader::decodePattern`: update the clock
state (lines 76–89), refuse rows with no clock ever seen (line 95), then
run the data decoder.  The persistent state is passed and returned
explicitly (the C++ mutates it through the `DecodingState` handle; a null
handle corresponds to the default `DXFEState`). -/
def decodePattern (rowNumber : Nat) (next : PatternView) (state : DXFEState) :
    Option Result × DXFEState :=
  if !(detectClock next state).foundClock then (none, detectClock next state)
  else (dataPhase rowNumber next (detectClock next state), detectClock next state)

/-! ### Helper lemmas -/

section Helpers

variable {α : Type}

/-- Setting an index and reading it back with `getD` gives the new value. -/
theorem getD_set_self : ∀ (l : List α) (i : Nat) (b d : α), i < l.length →
    (l.set i b).getD i d = b := by
  intro l
  induction l with
  | nil => intro i b d h; simp at h
  | cons a t ih =>
    intro i b d h
    cases i with
    | zero => rfl
    | succ j =>
      simp only [List.set, List.getD_cons_succ]
      exact ih j b d (by simpa using h)

/-- Setting one index leaves `getD` at another index unchanged. -/
theorem getD_set_ne : ∀ (l : List α) (i j : Nat) (b d : α), i ≠ j →
    (l.set i b).getD j d = l.getD j d := by
  intro l
  induction l with
  | nil => intro i j b d _; rfl
  | cons a t ih =>
    intro i j b d hij
    cases i with
    | zero =>
      cases j with
      | zero => exact absurd rfl hij
      | succ m => rfl
    | succ n =>
      cases j with
      | zero => rfl
      | succ m =>
        simp only [List.set, List.getD_cons_succ]
        exact ih n m b d (by omega)

/-- Setting an index at or past the taken prefix leaves the prefix unchanged. -/
theorem take_set_of_le : ∀ (l : List α) (n i : Nat) (b : α), n ≤ i →
    (l.set i b).take n = l.take n := by
  intro l
  induction l with
  | nil => intro n i b _; rfl
  | cons a t ih =>
    intro n i b h
    cases n with
    | zero => rfl
    | succ m =>
      cases i with
      | zero => omega
      | succ k =>
        simp only [List.set, List.take_succ_cons]
        rw [ih m k b (by omega)]

/-- Flipping one bit inside the summed prefix flips the parity of `boolSum`. -/
theorem boolSum_take_set_flip : ∀ (l : List Bool) (i n : Nat), i < n → i < l.length →
    (boolSum ((l.set i (!(l.getD i false))).take n) + boolSum (l.take n)) % 2 = 1 := by
  intro l
  induction l with
  | nil => intro i n _ h; simp at h
  | cons a t ih =>
    intro i n hin hil
    cases i with
    | zero =>
      cases n with
      | zero => omega
      | succ m =>
        simp only [List.getD_cons_zero, List.set, List.take_succ_cons, boolSum]
        cases a <;> simp <;> omega
    | succ j =>
      cases n with
      | zero => omega
      | succ m =>
        have H := ih j m (by omega) (by simpa using hil)
        simp only [List.getD_cons_succ, List.set, List.take_succ_cons, boolSum]
        omega

/-- The bit-recovery loop maintains `signal_data.length = min signal_length L`;
on normal exit the bit vector holds exactly `L` bits. -/
theorem bitLoopGo_length : ∀ (fuel L perBar : Nat) (v : PatternView) (sl : Nat)
    (b : Bool) (acc : List Bool) (res : PatternView × Nat × List Bool),
    acc.length = min sl L → bitLoopGo L perBar fuel v sl b acc = some res →
    res.2.2.length = L := by
  intro fuel
  induction fuel with
  | zero => intro L perBar v sl b acc res _ h; simp [bitLoopGo] at h
  | succ n ih =>
    intro L perBar v sl b acc res hinv h
    rw [bitLoopGo] at h
    by_cases hsl : sl < L
    · rw [if_pos hsl] at h
      by_cases hv : (!v.isValid) = true
      · rw [if_pos hv] at h; exact absurd h (by simp)
      · rw [if_neg hv] at h
        by_cases hw : currentBarWidth v.data perBar = 0
        · rw [if_pos hw] at h; exact absurd h (by simp)
        · rw [if_neg hw] at h
          refine ih L perBar (v.shift 1) (sl + currentBarWidth v.data perBar)
            (!b) _ res ?_ h
          simp only [List.length_append, List.length_replicate]
          omega
    · rw [if_neg hsl] at h
      obtain rfl : (v, sl, acc) = res := by simpa using h
      simp only
      omega

/-- The bit-recovery loop exits only once `signal_length ≥ L`. -/
theorem bitLoopGo_sl : ∀ (fuel L perBar : Nat) (v : PatternView) (sl : Nat)
    (b : Bool) (acc : List Bool) (res : PatternView × Nat × List Bool),
    bitLoopGo L perBar fuel v sl b acc = some res → L ≤ res.2.1 := by
  intro fuel
  induction fuel with
  | zero => intro L perBar v sl b acc res h; simp [bitLoopGo] at h
  | succ n ih =>
    intro L perBar v sl b acc res h
    rw [bitLoopGo] at h
    by_cases hsl : sl < L
    · rw [if_pos hsl] at h
      by_cases hv : (!v.isValid) = true
      · rw [if_pos hv] at h; exact absurd h (by simp)
      · rw [if_neg hv] at h
        by_cases hw : currentBarWidth v.data perBar = 0
        · rw [if_pos hw] at h; exact absurd h (by simp)
        · rw [if_neg hw] at h; exact ih _ _ _ _ _ _ _ h
    · rw [if_neg hsl] at h
      obtain rfl : (v, sl, acc) = res := by simpa using h
      simpa using Nat.le_of_not_lt hsl

end Helpers

section PostProcessLemmas

/-- A payload accepted by the post-loop validation passes the parity check. -/
theorem postProcess_some_parity {hf : Bool} {l : List Bool} {rn xs xe : Nat}
    {r : Result} (h : postProcess hf l rn xs xe = some r) : parityOkB l = true := by
  unfold postProcess at h
  by_cases c1 : (hf && decide (l.length < 23)) = true
  · rw [if_pos c1] at h; cases h
  rw [if_neg c1] at h
  by_cases c2 : (!hf && decide (l.length < 15)) = true
  · rw [if_pos c2] at h; cases h
  rw [if_neg c2] at h
  by_cases c3 : (l.getD 0 false || l.getD 8 false) = true
  · rw [if_pos c3] at h; cases h
  rw [if_neg c3] at h
  by_cases c4 : (hf && (l.getD 20 false || l.getD 22 false)) = true
  · rw [if_pos c4] at h; cases h
  rw [if_neg c4] at h
  by_cases c5 : (!hf && (l.getD 12 false || l.getD 14 false)) = true
  · rw [if_pos c5] at h; cases h
  rw [if_neg c5] at h
  by_cases c6 : (decide (minQuietZoneNum ≤ minQuietZoneDen) && hf &&
      decide (l = signal_clock)) = true
  · rw [if_pos c6] at h; cases h
  rw [if_neg c6] at h
  by_cases c7 : (!parityOkB l) = true
  · rw [if_pos c7] at h; cases h
  · simpa using c7

/-- A payload accepted by the post-loop validation has at least 15 bits. -/
theorem postProcess_some_len {hf : Bool} {l : List Bool} {rn xs xe : Nat}
    {r : Result} (h : postProcess hf l rn xs xe = some r) : 15 ≤ l.length := by
  unfold postProcess at h
  by_cases c1 : (hf && decide (l.length < 23)) = true
  · rw [if_pos c1] at h; cases h
  rw [if_neg c1] at h
  by_cases c2 : (!hf && decide (l.length < 15)) = true
  · rw [if_pos c2] at h; cases h
  cases hf with
  | true => simp at c1; omega
  | false => simp at c2; omega

/-- A payload accepted by the post-loop validation has a nonzero product
number and carries exactly the text built by `dxText`. -/
theorem postProcess_some_text {hf : Bool} {l : List Bool} {rn xs xe : Nat}
    {r : Result} (h : postProcess hf l rn xs xe = some r) :
    product_number l ≠ 0 ∧
      r = { text := dxText hf l, rowNumber := rn, xStart := xs, xStop := xe } := by
  unfold postProcess at h
  by_cases c1 : (hf && decide (l.length < 23)) = true
  · rw [if_pos c1] at h; cases h
  rw [if_neg c1] at h
  by_cases c2 : (!hf && decide (l.length < 15)) = true
  · rw [if_pos c2] at h; cases h
  rw [if_neg c2] at h
  by_cases c3 : (l.getD 0 false || l.getD 8 false) = true
  · rw [if_pos c3] at h; cases h
  rw [if_neg c3] at h
  by_cases c4 : (hf && (l.getD 20 false || l.getD 22 false)) = true
  · rw [if_pos c4] at h; cases h
  rw [if_neg c4] at h
  by_cases c5 : (!hf && (l.getD 12 false || l.getD 14 false)) = true
  · rw [if_pos c5] at h; cases h
  rw [if_neg c5] at h
  by_cases c6 : (decide (minQuietZoneNum ≤ minQuietZoneDen) && hf &&
      decide (l = signal_clock)) = true
  · rw [if_pos c6] at h; cases h
  rw [if_neg c6] at h
  by_cases c7 : (!parityOkB l) = true
  · rw [if_pos c7] at h; cases h
  rw [if_neg c7] at h
  by_cases c8 : product_number l = 0
  · rw [if_pos c8] at h; cases h
  rw [if_neg c8] at h
  exact ⟨c8, (Option.some_inj.mp h).symm⟩

/-- A payload failing the parity check is rejected. -/
theorem postProcess_none_of_parity_false {hf : Bool} {l : List Bool}
    {rn xs xe : Nat} (hp : parityOkB l = false) :
    postProcess hf l rn xs xe = none := by
  cases e : postProcess hf l rn xs xe with
  | none => rfl
  | some r => exact absurd (postProcess_some_parity e) (by simp [hp])

/-- The row number flows through the post-loop validation only into the
`rowNumber` field of the result. -/
theorem postProcess_rowNumber (hf : Bool) (l : List Bool) (r1 r2 xs xe : Nat) :
    postProcess hf l r1 xs xe =
      Option.map (fun r => { r with rowNumber := r1 }) (postProcess hf l r2 xs xe) := by
  unfold postProcess
  by_cases c1 : (hf && decide (l.length < 23)) = true
  · simp only [if_pos c1]; rfl
  simp only [if_neg c1]
  by_cases c2 : (!hf && decide (l.length < 15)) = true
  · simp only [if_pos c2]; rfl
  simp only [if_neg c2]
  by_cases c3 : (l.getD 0 false || l.getD 8 false) = true
  · simp only [if_pos c3]; rfl
  simp only [if_neg c3]
  by_cases c4 : (hf && (l.getD 20 false || l.getD 22 false)) = true
  · simp only [if_pos c4]; rfl
  simp only [if_neg c4]
  by_cases c5 : (!hf && (l.getD 12 false || l.getD 14 false)) = true
  · simp only [if_pos c5]; rfl
  simp only [if_neg c5]
  by_cases c6 : (decide (minQuietZoneNum ≤ minQuietZoneDen) && hf &&
      decide (l = signal_clock)) = true
  · simp only [if_pos c6]; rfl
  simp only [if_neg c6]
  by_cases c7 : (!parityOkB l) = true
  · simp only [if_pos c7]; rfl
  simp only [if_neg c7]
  by_cases c8 : product_number l = 0
  · simp only [if_pos c8]; rfl
  simp only [if_neg c8]
  rfl

end PostProcessLemmas

section DecoderLemmas

/-- Flipping a bit strictly before the parity position falsifies the parity
check. -/
theorem parityOkB_flip_of_lt {l : List Bool} {i : Nat} (hi : i < l.length - 2)
    (hp : parityOkB l = true) :
    parityOkB (l.set i (!(l.getD i false))) = false := by
  have hil : i < l.length := by omega
  unfold parityOkB at hp ⊢
  rw [List.length_set]
  have hflip := boolSum_take_set_flip l i (l.length - 2) hi hil
  rw [getD_set_ne _ _ _ _ _ (by omega)]
  simp only [beq_iff_eq] at hp
  rw [beq_eq_false_iff_ne]
  omega

/-- Flipping the parity bit itself falsifies the parity check. -/
theorem parityOkB_flip_parity_bit {l : List Bool} (hlen : 2 ≤ l.length)
    (hp : parityOkB l = true) :
    parityOkB (l.set (l.length - 2) (!(l.getD (l.length - 2) false))) = false := by
  unfold parityOkB at hp ⊢
  rw [List.length_set]
  rw [take_set_of_le _ _ _ _ (le_refl (l.length - 2))]
  rw [getD_set_self _ _ _ _ (by omega)]
  simp only [beq_iff_eq] at hp
  rw [beq_eq_false_iff_ne]
  cases hgd : l.getD (l.length - 2) false <;> rw [hgd] at hp <;> simp at hp ⊢ <;> omega

/-- The parity check never reads the final bit. -/
theorem parityOkB_set_last (l : List Bool) (b : Bool) (hlen : 2 ≤ l.length) :
    parityOkB (l.set (l.length - 1) b) = parityOkB l := by
  unfold parityOkB
  rw [List.length_set]
  rw [take_set_of_le _ _ _ _ (by omega)]
  rw [getD_set_ne _ _ _ _ _ (by omega)]

/-- The data decoder returns nothing when the located start pattern fails
the clock-alignment test. -/
theorem dataPhase_none_of_gate {rn : Nat} {v : PatternView} {st : DXFEState}
    {next : PatternView}
    (hF : FindLeftGuard v minCharCount START_PATTERN_ START_SUM
        minQuietZoneNum minQuietZoneDen = some next)
    (hg : toleranceGate next.pixelsInFront st.clockPixelsInFront
        st.pixelTolerance = false) :
    dataPhase rn v st = none := by
  unfold dataPhase
  rw [hF]
  simp [hg]

/-- The data decoder's row number flows only into the result's row field. -/
theorem dataPhase_rowNumber (r1 r2 : Nat) (v : PatternView) (st : DXFEState) :
    dataPhase r1 v st =
      Option.map (fun r => { r with rowNumber := r1 }) (dataPhase r2 v st) := by
  unfold dataPhase
  cases FindLeftGuard v minCharCount START_PATTERN_ START_SUM
      minQuietZoneNum minQuietZoneDen with
  | none => rfl
  | some next =>
    by_cases hg : toleranceGate next.pixelsInFront st.clockPixelsInFront
        st.pixelTolerance = true
    · simp only [if_pos hg]
      by_cases hv : (!(next.shift START_PATTERN_SIZE).isValid) = true
      · simp only [if_pos hv]; rfl
      simp only [if_neg hv]
      cases bitLoop (if st.containsHFNumber then 23 else 15) next.data
          (next.shift START_PATTERN_SIZE) with
      | none => rfl
      | some res =>
        obtain ⟨n3, sl, data⟩ := res
        by_cases hs : (!IsRightGuard (n3.subView 0 3) STOP_PATTERN_ STOP_SUM
            minQuietZoneNum minQuietZoneDen) = true
        · simp only [if_pos hs]; rfl
        simp only [if_neg hs]
        exact postProcess_rowNumber st.containsHFNumber data r1 r2
          next.pixelsInFront (n3.subView 0 3).pixelsTillEnd
    · simp only [if_neg hg]; rfl

/-- A successful data decode comes from some recovered bit vector accepted
by the post-loop validation. -/
theorem dataPhase_some {rn : Nat} {v : PatternView} {st : DXFEState} {r : Result}
    (h : dataPhase rn v st = some r) :
    ∃ (l : List Bool) (xs xe : Nat),
      postProcess st.containsHFNumber l rn xs xe = some r := by
  unfold dataPhase at h
  repeat' split at h
  all_goals first
    | cases h
    | exact ⟨_, _, _, h⟩

/-- The persistent state returned by a row call is exactly the state left
by the clock-detection block. -/
theorem decodePattern_snd (rn : Nat) (v : PatternView) (st : DXFEState) :
    (decodePattern rn v st).2 = detectClock v st := by
  unfold decodePattern
  split <;> rfl

/-- Once a clock is stored the clock-detection block leaves the state
untouched. -/
theorem detectClock_of_found {v : PatternView} {st : DXFEState}
    (h : st.foundClock = true) : detectClock v st = st := by
  unfold detectClock
  rw [h]
  rfl

/-- The whole row call is independent of the row number except for the
`rowNumber` field of the emitted result. -/
theorem decodePattern_rowNumber (r1 r2 : Nat) (v : PatternView) (st : DXFEState) :
    decodePattern r1 v st =
      (Option.map (fun r => { r with rowNumber := r1 }) (decodePattern r2 v st).1,
       (decodePattern r2 v st).2) := by
  unfold decodePattern
  by_cases hc : (!(detectClock v st).foundClock) = true
  · simp only [if_pos hc]; rfl
  · simp only [if_neg hc]
    rw [dataPhase_rowNumber r1 r2 v (detectClock v st)]

end DecoderLemmas

/-! ### Concrete rows used by counterexamples and witnesses -/

/-- The state created by `state.reset(new DXFEState)`: all fields default. -/
def freshState : DXFEState := {}

/-- A whole-row view as handed to `decodePattern`: cursor at the start,
window covering the row. -/
def viewOf (runs : List Nat) : PatternView :=
  { runs := runs, pos := 0, size := runs.length }

/-- A non-HF data band at unit width 4: leading space, start pattern
(5 bars of 4 px), payload runs 28/4/20/4/4 encoding the 15 bits
`000000010000010` (product 1, generation 0, parity 1), stop pattern,
trailing space. -/
def dataRow15 : List Nat := [4, 4, 4, 4, 4, 4, 28, 4, 20, 4, 4, 4, 4, 4, 4]

/-- `dataRow15` with the last payload run widened from 4 px to 8 px
(2 units), so the accumulated `signal_length` overshoots 15. -/
def overshootRow : List Nat := [4, 4, 4, 4, 4, 4, 28, 4, 20, 4, 8, 4, 4, 4, 4]

/-- A non-HF clock at unit width 5 starting at pixel 4: space 4, then runs
25, 5 x 15, 15, trailing space. -/
def clockRowNoHF : List Nat := [4, 25] ++ List.replicate 15 5 ++ [15, 5]

/-- The same non-HF clock but starting at pixel 5. -/
def clockRowNoHF5 : List Nat := [5, 25] ++ List.replicate 15 5 ++ [15, 5]

/-- An HF clock at unit width 20 starting at pixel 8: space 8, then runs
100, 20 x 23, 60, trailing space; total clock width 620 px. -/
def hfClockRow : List Nat := [8, 100] ++ List.replicate 23 20 ++ [60, 20]

/-- A single row containing a complete unit-width data band (start at
pixel 1, payload `000000010000010`, stop) followed by a huge non-HF clock
(unit 460) whose left edge at pixel 214 lies within half its own stored
tolerance (460/2 = 230) of the data band's start. -/
def comboRow : List Nat :=
  [1, 1, 1, 1, 1, 1, 7, 1, 5, 1, 1, 1, 1, 1, 190, 2300] ++
    List.replicate 15 460 ++ [1380, 200]

/-- The bit vector recovered from `dataRow15`. -/
def dxBits : List Bool :=
  [false, false, false, false, false, false, false, true,
   false, false, false, false, false, true, false]

/-! ### Claim theorems -/

/-- Claim C1, counterexample: the decoder keeps no row number in its state
and performs no `clock.row_number ≤ row_number` test.  A clock observed on
row 10 is happily correlated with a well-formed data band presented on row
2 < 10, which decodes to `"1-0"` — contradicting the claim that a data
band on a row above the clock row yields no result. -/
theorem c1_row_ordering_counterexample :
    (decodePattern 10 (viewOf clockRowNoHF) freshState).2.foundClock = true ∧
    (decodePattern 10 (viewOf clockRowNoHF) freshState).1 = none ∧
    (decodePattern 2 (viewOf dataRow15)
        (decodePattern 10 (viewOf clockRowNoHF) freshState).2).1 =
      some { text := "1-0", rowNumber := 2, xStart := 4, xStop := 96 } ∧
    (2 : Nat) < 10 := by
  decide

/-- Claim C1, amended: `decode_row` performs no row-ordering check at all —
its outcome is independent of the row number except that an emitted result
carries the current row number; in particular a data band on a row above
the row where the clock was observed is accepted. -/
theorem c1_row_ordering_amended (r1 r2 : Nat) (v : PatternView) (st : DXFEState) :
    decodePattern r1 v st =
      (Option.map (fun r => { r with rowNumber := r1 }) (decodePattern r2 v st).1,
       (decodePattern r2 v st).2) :=
  decodePattern_rowNumber r1 r2 v st

/-- Claim C2, counterexample: the decoder never requires
`signal_length == L`.  On `overshootRow` the loop exits with
`signal_length = 16 > 15` (the clamped bit vector still has 15 bits) and
the row nevertheless yields the result `"1-0"` — contradicting the claim
that an overshoot yields no result. -/
theorem c2_exact_tiling_counterexample :
    bitLoop 15 4 { runs := overshootRow, pos := 6, size := 5 } =
      some ({ runs := overshootRow, pos := 11, size := 5 }, 16, dxBits) ∧
    (16 : Nat) ≠ 15 ∧
    (decodePattern 0 (viewOf overshootRow)
        { foundClock := true, containsHFNumber := false,
          clockPixelsInFront := 4, pixelTolerance := 4 }).1 =
      some { text := "1-0", rowNumber := 0, xStart := 4, xStop := 100 } := by
  decide

/-- Claim C2, amended: after the bit-recovery loop the decoder checks only
the stop guard and the bit vector — there is no `signal_length == L`
check.  What the loop does guarantee is `signal_length ≥ L` on every
normal exit; an overshoot (`signal_length > L`) does not by itself reject
the row. -/
theorem c2_exact_tiling_amended (L perBar : Nat) (v : PatternView)
    (res : PatternView × Nat × List Bool) (h : bitLoop L perBar v = some res) :
    L ≤ res.2.1 := by
  unfold bitLoop at h
  exact bitLoopGo_sl (L + 1) L perBar v 0 false [] res h

/-- Witness for the amended C2 theorem at the overshooting input. -/
theorem c2_exact_tiling_witness :
    bitLoop 15 4 { runs := overshootRow, pos := 6, size := 5 } =
      some ({ runs := overshootRow, pos := 11, size := 5 }, 16, dxBits) ∧
    (15 : Nat) ≤ 16 :=
  ⟨by decide,
   c2_exact_tiling_amended 15 4 { runs := overshootRow, pos := 6, size := 5 }
     ({ runs := overshootRow, pos := 11, size := 5 }, 16, dxBits) (by decide)⟩

/-- Claim C3, counterexample: the loop's rounding uses the strict
comparison `raw % perBar > perBar / 2`, not the claimed `≥`.  At
`raw = 6 = 1.5 × 4`, `perBar = 4` the code computes 1 unit while the
claimed formula (`≥`) gives 2 — so a run of exactly 1.5 unit widths
rounds to 1, not 2. -/
theorem c3_rounding_counterexample :
    currentBarWidth 6 4 = 1 ∧
    6 / 4 + (if 6 % 4 ≥ 4 / 2 then 1 else 0) = 2 := by
  decide

/-- Claim C3, amended: the rounded unit count is
`raw / perBar + (raw % perBar > perBar / 2 ? 1 : 0)` with a strict
comparison: a run of exactly 1.5 unit widths rounds down to 1 unit, and a
run of 1.49 unit widths also rounds to 1 unit. -/
theorem c3_rounding_amended (u k : Nat) (hu : u % 2 = 0) (hu0 : 0 < u)
    (hk : 0 < k) :
    currentBarWidth (u + u / 2) u = 1 ∧
    currentBarWidth (149 * k) (100 * k) = 1 := by
  constructor
  · obtain ⟨m, rfl⟩ : ∃ m, u = 2 * m := ⟨u / 2, by omega⟩
    have hm : 0 < m := by omega
    have h1 : 2 * m + 2 * m / 2 = m + 2 * m := by omega
    unfold currentBarWidth
    rw [h1]
    have hdiv : (m + 2 * m) / (2 * m) = 1 := by
      rw [Nat.add_div_right _ (by omega)]
      rw [Nat.div_eq_of_lt (by omega)]
    have hmod : (m + 2 * m) % (2 * m) = m := by
      rw [Nat.add_mod_right]
      exact Nat.mod_eq_of_lt (by omega)
    rw [hdiv, hmod]
    have hhalf : 2 * m / 2 = m := by omega
    rw [hhalf, if_neg (by omega)]
  · unfold currentBarWidth
    have hdiv : 149 * k / (100 * k) = 1 := by
      rw [Nat.mul_comm 149 k, Nat.mul_comm 100 k, Nat.mul_div_mul_left _ _ hk]
    have hmod : 149 * k % (100 * k) = 49 * k := by
      rw [Nat.mul_comm 149 k, Nat.mul_comm 100 k, Nat.mul_mod_mul_left]
      omega
    have hhalf : 100 * k / 2 = 50 * k := by omega
    rw [hdiv, hmod, hhalf, if_neg (by omega)]

/-- Witness for the amended C3 theorem at `u = 4`, `k = 1`. -/
theorem c3_rounding_witness :
    (4 : Nat) % 2 = 0 ∧ (0 : Nat) < 4 ∧ (0 : Nat) < 1 ∧
    (currentBarWidth (4 + 4 / 2) 4 = 1 ∧ currentBarWidth (149 * 1) (100 * 1) = 1) :=
  ⟨by decide, by decide, by decide,
   c3_rounding_amended 4 1 (by decide) (by decide) (by decide)⟩

/-- Claim C4, counterexample: the alignment test is strict and uses *half*
of the stored tolerance, so the boundary case is rejected, not accepted.
With a stored clock at pixel 8 and tolerance 4, a data band at pixel 4
(distance = 4 = the tolerance) is rejected, while the identical row with
the clock at pixel 4 decodes — contradicting the claim that distance
equal to the tolerance is accepted. -/
theorem c4_tolerance_counterexample :
    ((4 : Int) - 8).natAbs = 4 ∧
    toleranceGate 4 8 4 = false ∧
    (decodePattern 0 (viewOf dataRow15)
        { foundClock := true, containsHFNumber := false,
          clockPixelsInFront := 8, pixelTolerance := 4 }).1 = none ∧
    (decodePattern 0 (viewOf dataRow15)
        { foundClock := true, containsHFNumber := false,
          clockPixelsInFront := 4, pixelTolerance := 4 }).1 =
      some { text := "1-0", rowNumber := 0, xStart := 4, xStop := 96 } := by
  decide

/-- Claim C4, amended: the data band is accepted exactly when
`|x_start − clock.x_start| < clock.pixel_tolerance / 2` — a strict bound
at half the stored tolerance; any band at distance at least
`pixel_tolerance / 2` (in particular at distance `pixel_tolerance`) yields
no result. -/
theorem c4_tolerance_amended :
    (∀ x c t : Nat, toleranceGate x c t = true ↔ ((x : Int) - c).natAbs < t / 2) ∧
    (∀ (rn : Nat) (v : PatternView) (st : DXFEState) (next : PatternView),
      FindLeftGuard v minCharCount START_PATTERN_ START_SUM
          minQuietZoneNum minQuietZoneDen = some next →
      toleranceGate next.pixelsInFront st.clockPixelsInFront
          st.pixelTolerance = false →
      dataPhase rn v st = none) := by
  constructor
  · intro x c t
    unfold toleranceGate
    simp only [Bool.and_eq_true, decide_eq_true_eq]
    omega
  · intro rn v st next hF hg
    exact dataPhase_none_of_gate hF hg

/-- Witness for the amended C4 theorem: the boundary-distance band of the
counterexample is rejected by the gate and the row decodes to nothing. -/
theorem c4_tolerance_witness :
    FindLeftGuard (viewOf dataRow15) minCharCount START_PATTERN_ START_SUM
        minQuietZoneNum minQuietZoneDen =
      some { runs := dataRow15, pos := 1, size := 5 } ∧
    toleranceGate ({ runs := dataRow15, pos := 1, size := 5 } :
        PatternView).pixelsInFront 8 4 = false ∧
    dataPhase 3 (viewOf dataRow15)
      { foundClock := true, containsHFNumber := false,
        clockPixelsInFront := 8, pixelTolerance := 4 } = none :=
  ⟨by decide, by decide,
   c4_tolerance_amended.2 3 (viewOf dataRow15)
     { foundClock := true, containsHFNumber := false,
       clockPixelsInFront := 8, pixelTolerance := 4 }
     { runs := dataRow15, pos := 1, size := 5 } (by decide) (by decide)⟩

/-- Claim C5, counterexample: the stored tolerance divides by 23 regardless
of the clock variant and applies no 0.5 factor.  For the HF clock of width
620 px the claim's formula `(x_stop − x_start) / clock_unit_length × 0.5 =
620 / 31 / 2 = 10`, but the decoder stores `620 / 23 = 26`. -/
theorem c5_tolerance_formula_counterexample :
    detectClock (viewOf hfClockRow) freshState =
      { foundClock := true, containsHFNumber := true,
        clockPixelsInFront := 8, pixelTolerance := 26 } ∧
    (628 - 8) / 31 / 2 = 10 ∧ (26 : Nat) ≠ 10 := by
  decide

/-- Claim C5, amended: for every detected clock — HF or not — the stored
`pixelTolerance` is `(x_stop − x_start) / 23` in integer arithmetic; no
0.5 factor is applied at storage time (the halving `pixelTolerance / 2`
happens later, at the data-alignment check). -/
theorem c5_tolerance_formula_amended (v : PatternView) (st : DXFEState)
    (c : PatternView) (h0 : st.foundClock = false)
    (h : FindLeftGuard v minCharCount CLOCK_PATTERN_HF CLOCK_SUM_HF
          minQuietZoneNum minQuietZoneDen = some c ∨
        (FindLeftGuard v minCharCount CLOCK_PATTERN_HF CLOCK_SUM_HF
            minQuietZoneNum minQuietZoneDen = none ∧
         FindLeftGuard v minCharCount CLOCK_PATTERN_NO_HF CLOCK_SUM_NO_HF
            minQuietZoneNum minQuietZoneDen = some c)) :
    (detectClock v st).pixelTolerance = (c.pixelsTillEnd - c.pixelsInFront) / 23 ∧
    (detectClock v st).clockPixelsInFront = c.pixelsInFront := by
  unfold detectClock
  rcases h with h | ⟨h1, h2⟩
  · rw [h0]
    simp [h]
  · rw [h0]
    simp [h1, h2]

/-- Witness for the amended C5 theorem at the concrete HF clock row. -/
theorem c5_tolerance_formula_witness :
    freshState.foundClock = false ∧
    ((detectClock (viewOf hfClockRow) freshState).pixelTolerance =
        (({ runs := hfClockRow, pos := 1, size := 25 } :
            PatternView).pixelsTillEnd -
          ({ runs := hfClockRow, pos := 1, size := 25 } :
            PatternView).pixelsInFront) / 23 ∧
      (detectClock (viewOf hfClockRow) freshState).clockPixelsInFront =
        ({ runs := hfClockRow, pos := 1, size := 25 } :
          PatternView).pixelsInFront) :=
  ⟨rfl,
   c5_tolerance_formula_amended (viewOf hfClockRow) freshState
     { runs := hfClockRow, pos := 1, size := 25 } rfl (Or.inl (by decide))⟩

/-- Claim C6, counterexample: the clock locator runs on the current row
*before* the "no clock" gate, so a call entering with an empty state can
still return a result when the same row contains both a clock pattern and
a data band aligned to it.  On `comboRow` with the default (clockless)
state the call decodes `"1-0"`. -/
theorem c6_clock_gate_counterexample :
    freshState.foundClock = false ∧
    (decodePattern 7 (viewOf comboRow) freshState).1 =
      some { text := "1-0", rowNumber := 7, xStart := 1, xStop := 24 } := by
  decide

/-- Claim C6, amended: the gate tests the state *after* the current row's
clock detection: a call returns no result whenever neither the stored
state nor the current row yields a clock — a well-formed data band alone
cannot produce a result, but a row containing both a clock and an aligned
data band can, even from an empty state. -/
theorem c6_clock_gate_amended (rn : Nat) (v : PatternView) (st : DXFEState)
    (h : (detectClock v st).foundClock = false) :
    decodePattern rn v st = (none, detectClock v st) := by
  unfold decodePattern
  simp [h]

/-- Witness for the amended C6 theorem: a pure data row with an empty state
yields nothing. -/
theorem c6_clock_gate_witness :
    (detectClock (viewOf dataRow15) freshState).foundClock = false ∧
    decodePattern 3 (viewOf dataRow15) freshState =
      (none, detectClock (viewOf dataRow15) freshState) :=
  ⟨by decide, c6_clock_gate_amended 3 (viewOf dataRow15) freshState (by decide)⟩

/-- Claim C7 (confirmed): a payload is accepted only if the sum of its
first `L − 2` bits taken modulo 2 equals the parity bit at position
`L − 2`; flipping any single bit strictly before the parity position, or
the parity bit itself, of an otherwise accepted payload causes rejection;
and the parity validation never reads the final bit `L − 1`. -/
theorem c7_parity_law :
    (∀ (hf : Bool) (l : List Bool) (rn xs xe : Nat) (r : Result),
      postProcess hf l rn xs xe = some r → parityOkB l = true) ∧
    (∀ (hf : Bool) (l : List Bool) (rn xs xe : Nat) (r : Result) (i : Nat),
      postProcess hf l rn xs xe = some r → i < l.length - 2 →
      postProcess hf (l.set i (!(l.getD i false))) rn xs xe = none) ∧
    (∀ (hf : Bool) (l : List Bool) (rn xs xe : Nat) (r : Result),
      postProcess hf l rn xs xe = some r →
      postProcess hf (l.set (l.length - 2) (!(l.getD (l.length - 2) false)))
        rn xs xe = none) ∧
    (∀ (l : List Bool) (b : Bool), 2 ≤ l.length →
      parityOkB (l.set (l.length - 1) b) = parityOkB l) := by
  refine ⟨?_, ?_, ?_, ?_⟩
  · intro hf l rn xs xe r h
    exact postProcess_some_parity h
  · intro hf l rn xs xe r i h hi
    exact postProcess_none_of_parity_false
      (parityOkB_flip_of_lt hi (postProcess_some_parity h))
  · intro hf l rn xs xe r h
    have hlen := postProcess_some_len h
    exact postProcess_none_of_parity_false
      (parityOkB_flip_parity_bit (by omega) (postProcess_some_parity h))
  · intro l b hlen
    exact parityOkB_set_last l b hlen

/-- Witness for C7 at the concrete accepted payload of `dataRow15`:
flipping bit 1 is rejected, flipping the parity bit (position 13) is
rejected, and setting the final bit does not change the parity check. -/
theorem c7_parity_law_witness :
    postProcess false dxBits 0 4 96 =
      some { text := "1-0", rowNumber := 0, xStart := 4, xStop := 96 } ∧
    (1 : Nat) < dxBits.length - 2 ∧
    postProcess false (dxBits.set 1 (!(dxBits.getD 1 false))) 0 4 96 = none ∧
    postProcess false
      (dxBits.set (dxBits.length - 2) (!(dxBits.getD (dxBits.length - 2) false)))
      0 4 96 = none ∧
    2 ≤ dxBits.length ∧
    parityOkB (dxBits.set (dxBits.length - 1) true) = parityOkB dxBits :=
  ⟨by decide, by decide,
   c7_parity_law.2.1 false dxBits 0 4 96
     { text := "1-0", rowNumber := 0, xStart := 4, xStop := 96 } 1
     (by decide) (by decide),
   c7_parity_law.2.2.1 false dxBits 0 4 96
     { text := "1-0", rowNumber := 0, xStart := 4, xStop := 96 } (by decide),
   by decide,
   c7_parity_law.2.2.2 dxBits true (by decide)⟩

/-- Claim C8, counterexample: once a clock is stored the clock locator is
skipped on every later row — nothing is ever replaced.  With a stored
clock at pixel 4 (tolerance 5), a row carrying a fresh clock at pixel 5
(within the stored tolerance) leaves the state bit-for-bit unchanged; the
registry does not keep the freshest geometry. -/
theorem c8_refinement_counterexample :
    FindLeftGuard (viewOf clockRowNoHF5) minCharCount CLOCK_PATTERN_NO_HF
        CLOCK_SUM_NO_HF minQuietZoneNum minQuietZoneDen =
      some { runs := clockRowNoHF5, pos := 1, size := 17 } ∧
    ({ runs := clockRowNoHF5, pos := 1, size := 17 } : PatternView).pixelsInFront = 5 ∧
    ((5 : Int) - 4).natAbs ≤ 5 ∧
    (decodePattern 1 (viewOf clockRowNoHF5)
        { foundClock := true, containsHFNumber := false,
          clockPixelsInFront := 4, pixelTolerance := 5 }).2 =
      { foundClock := true, containsHFNumber := false,
        clockPixelsInFront := 4, pixelTolerance := 5 } ∧
    (5 : Nat) ≠ 4 := by
  decide

/-- Claim C8, amended: the clock locator runs only while no clock is
stored; once `foundClock` is set the persistent state is never written
again, so the retained geometry is the *first* one ever observed and the
stored clock count trivially stays one. -/
theorem c8_refinement_amended (rn : Nat) (v : PatternView) (st : DXFEState)
    (h : st.foundClock = true) : (decodePattern rn v st).2 = st := by
  rw [decodePattern_snd]
  exact detectClock_of_found h

/-- Witness for the amended C8 theorem at the concrete refreshed-clock row. -/
theorem c8_refinement_witness :
    ({ foundClock := true, containsHFNumber := false, clockPixelsInFront := 4,
        pixelTolerance := 5 } : DXFEState).foundClock = true ∧
    (decodePattern 12 (viewOf clockRowNoHF5)
        { foundClock := true, containsHFNumber := false,
          clockPixelsInFront := 4, pixelTolerance := 5 }).2 =
      { foundClock := true, containsHFNumber := false,
        clockPixelsInFront := 4, pixelTolerance := 5 } :=
  ⟨rfl,
   c8_refinement_amended 12 (viewOf clockRowNoHF5)
     { foundClock := true, containsHFNumber := false,
       clockPixelsInFront := 4, pixelTolerance := 5 } rfl⟩

/-- Claim C9 (confirmed): every emitted result's text is
`str(product) ++ "-" ++ str(generation)` where `product` is the MSB-first
value of bits 1..7 of the recovered payload (required nonzero) and
`generation` the MSB-first value of bits 9..12; for HF codes the text
additionally ends with `"/" ++ str(half_frame / 2)`, with `"A"` appended
exactly when the MSB-first value of bits 13..19 is odd. -/
theorem c9_text_grammar (rn : Nat) (v : PatternView) (st st' : DXFEState)
    (r : Result) (h : decodePattern rn v st = (some r, st')) :
    ∃ l : List Bool,
      fromVector ((l.drop 1).take 7) ≠ 0 ∧
      r.text =
        (if st'.containsHFNumber then
          (if fromVector ((l.drop 13).take 7) % 2 ≠ 0 then
            toString (fromVector ((l.drop 1).take 7)) ++ "-" ++
              toString (fromVector ((l.drop 9).take 4)) ++ "/" ++
              toString (fromVector ((l.drop 13).take 7) / 2) ++ "A"
          else
            toString (fromVector ((l.drop 1).take 7)) ++ "-" ++
              toString (fromVector ((l.drop 9).take 4)) ++ "/" ++
              toString (fromVector ((l.drop 13).take 7) / 2))
        else
          toString (fromVector ((l.drop 1).take 7)) ++ "-" ++
            toString (fromVector ((l.drop 9).take 4))) := by
  unfold decodePattern at h
  by_cases hc : (!(detectClock v st).foundClock) = true
  · rw [if_pos hc] at h
    exact absurd (congrArg Prod.fst h) (by simp)
  · rw [if_neg hc] at h
    have h1 : dataPhase rn v (detectClock v st) = some r := congrArg Prod.fst h
    have h2 : detectClock v st = st' := congrArg Prod.snd h
    obtain ⟨l, xs, xe, hpp⟩ := dataPhase_some h1
    obtain ⟨hnz, hr⟩ := postProcess_some_text hpp
    subst hr
    refine ⟨l, hnz, ?_⟩
    rw [← h2]
    show dxText (detectClock v st).containsHFNumber l = _
    unfold dxText product_number generation_number half_frame_number
    rfl

/-- Witness for C9 at the concrete successful non-HF decode of `dataRow15`. -/
theorem c9_text_grammar_witness :
    decodePattern 0 (viewOf dataRow15)
        { foundClock := true, containsHFNumber := false,
          clockPixelsInFront := 4, pixelTolerance := 4 } =
      (some { text := "1-0", rowNumber := 0, xStart := 4, xStop := 96 },
       { foundClock := true, containsHFNumber := false,
         clockPixelsInFront := 4, pixelTolerance := 4 }) ∧
    (∃ l : List Bool,
      fromVector ((l.drop 1).take 7) ≠ 0 ∧
      ({ text := "1-0", rowNumber := 0, xStart := 4, xStop := 96 } :
          Result).text =
        toString (fromVector ((l.drop 1).take 7)) ++ "-" ++
          toString (fromVector ((l.drop 9).take 4))) :=
  ⟨by decide,
   c9_text_grammar 0 (viewOf dataRow15)
     { foundClock := true, containsHFNumber := false,
       clockPixelsInFront := 4, pixelTolerance := 4 }
     { foundClock := true, containsHFNumber := false,
       clockPixelsInFront := 4, pixelTolerance := 4 }
     { text := "1-0", rowNumber := 0, xStart := 4, xStop := 96 } (by decide)⟩

/-- Claim C10 (confirmed): whenever the bit-recovery loop exits normally
the bit vector holds exactly `L` elements (23 for an HF clock, 15
otherwise), so every element access performed afterwards — indices 0 and
8, indices 12 and 14 for non-HF, indices 20 and 22 for HF, and the parity
positions `L − 2` and `L − 1` — is in bounds; the decoder (a total
function here) never faults. -/
theorem c10_bounds (hf : Bool) (perBar : Nat) (v : PatternView)
    (res : PatternView × Nat × List Bool)
    (h : bitLoop (if hf then 23 else 15) perBar v = some res) :
    res.2.2.length = (if hf then 23 else 15) ∧
    0 < res.2.2.length ∧ 8 < res.2.2.length ∧
    (hf = true → 20 < res.2.2.length ∧ 22 < res.2.2.length) ∧
    (hf = false → 12 < res.2.2.length ∧ 14 < res.2.2.length) ∧
    res.2.2.length - 2 < res.2.2.length ∧
    res.2.2.length - 1 < res.2.2.length := by
  unfold bitLoop at h
  have hl := bitLoopGo_length ((if hf then 23 else 15) + 1) (if hf then 23 else 15)
    perBar v 0 false [] res (by simp) h
  rw [hl]
  cases hf <;> norm_num

/-- Witness for C10 at the concrete loop run over `dataRow15`. -/
theorem c10_bounds_witness :
    bitLoop (if false then 23 else 15) 4 { runs := dataRow15, pos := 6, size := 5 } =
      some ({ runs := dataRow15, pos := 11, size := 5 }, 15, dxBits) ∧
    dxBits.length = 15 :=
  ⟨by decide,
   (c10_bounds false 4 { runs := dataRow15, pos := 6, size := 5 }
     ({ runs := dataRow15, pos := 11, size := 5 }, 15, dxBits) (by decide)).1⟩
